import Mathlib

/-!
Shallow embedding of the Tauri backend of the Synapse GUI configurator
(src-tauri/src: main.rs, commands.rs, skills.rs, security.rs, metrics.rs,
wizard.rs), together with theorems settling the spec claims.

Modelling conventions:
* `serde_json::Value` is modelled by the inductive `Json` below; objects are
  association lists in the field order written in the source (`json!` literals
  and `#[derive(Serialize)]` field order).  Rust `HashMap` payloads become
  association lists in the insertion order of the source literal.
* Rust `f64`/`f32` literals are modelled as `Rat`; no claim depends on
  floating-point rounding.
* `chrono::Utc::now()` is modelled by an explicit `now : String` parameter
  (serde serialises `DateTime<Utc>` to an RFC 3339 string); the sysinfo
  system snapshot read by `metrics::get_system_metrics` is modelled by an
  explicit `SysState` parameter.
* Every Tauri command has Rust type `Result<ApiResponse, String>`, modelled
  as `Except String ApiResponse`.  The commands perform no I/O and access no
  state, so they embed as pure Lean functions of their arguments (plus the
  `now` / `SysState` parameters above).
-/

/-- A JSON value, the model of `serde_json::Value`. -/
inductive Json where
  | null : Json
  | bool (b : Bool) : Json
  | str (s : String) : Json
  | num (q : Rat) : Json
  | arr (elems : List Json) : Json
  | obj (fields : List (String × Json)) : Json

/-- Look a field up in a JSON object (`none` on non-objects). -/
def jfield (j : Json) (k : String) : Option Json :=
  match j with
  | .obj fields => fields.lookup k
  | _ => none

/-- Serialise an `Option String` the way serde does (`null` for `None`). -/
def Json.optStr : Option String → Json
  | none => .null
  | some s => .str s

/-- `PROTOCOL_VERSION` from main.rs. -/
def PROTOCOL_VERSION : String := "1.0"

/-- `SPEC_VERSION` from main.rs. -/
def SPEC_VERSION : String := "3.1"

namespace commands

/-- `BaseResponse` from commands.rs. -/
structure BaseResponse where
  protocol_version : String
  spec_version : String
deriving DecidableEq

/-- `impl Default for BaseResponse` from commands.rs. -/
def BaseResponse.mkDefault : BaseResponse :=
  { protocol_version := PROTOCOL_VERSION, spec_version := SPEC_VERSION }

/-- `ApiResponse` from commands.rs. -/
structure ApiResponse where
  base : BaseResponse
  success : Bool
  data : Option Json
  error : Option String

/-- `ApiResponse::success` from commands.rs (renamed: `success` is the field). -/
def ApiResponse.mkSuccess (data : Json) : ApiResponse :=
  { base := BaseResponse.mkDefault
    success := true
    data := some data
    error := none }

/-- `ApiResponse::error` from commands.rs (renamed: avoids the field names). -/
def ApiResponse.mkError (message : String) : ApiResponse :=
  { base := BaseResponse.mkDefault
    success := false
    data := none
    error := some message }

/-- `LLMProviderConfig` from commands.rs. -/
structure LLMProviderConfig where
  name : String
  provider_type : String
  api_key : Option String
  base_url : Option String
  model : String
  priority : Nat
  is_active : Bool

/-- Serde serialisation of `LLMProviderConfig` (declaration field order). -/
def LLMProviderConfig.toJson (c : LLMProviderConfig) : Json :=
  .obj [("name", .str c.name), ("provider_type", .str c.provider_type),
        ("api_key", Json.optStr c.api_key), ("base_url", Json.optStr c.base_url),
        ("model", .str c.model), ("priority", .num c.priority),
        ("is_active", .bool c.is_active)]

/-- `SecuritySettings` from commands.rs (no `protocol_version` field here,
unlike the struct of the same name in security.rs). -/
structure SecuritySettings where
  require_approval_for_risk : Nat
  isolation_policy : String
  audit_enabled : Bool
  trusted_users : List String

/-- Serde serialisation of commands.rs `SecuritySettings`. -/
def SecuritySettings.toJson (s : SecuritySettings) : Json :=
  .obj [("require_approval_for_risk", .num s.require_approval_for_risk),
        ("isolation_policy", .str s.isolation_policy),
        ("audit_enabled", .bool s.audit_enabled),
        ("trusted_users", .arr (s.trusted_users.map Json.str))]

/-- `SynapseConfig` from commands.rs; `data_paths: HashMap<String, String>`
is an association list. -/
structure SynapseConfig where
  language : String
  mode : String
  llm_providers : List LLMProviderConfig
  data_paths : List (String × String)
  security_settings : SecuritySettings

/-- Serde serialisation of `SynapseConfig`. -/
def SynapseConfig.toJson (c : SynapseConfig) : Json :=
  .obj [("language", .str c.language), ("mode", .str c.mode),
        ("llm_providers", .arr (c.llm_providers.map LLMProviderConfig.toJson)),
        ("data_paths", .obj (c.data_paths.map fun p => (p.1, Json.str p.2))),
        ("security_settings", SecuritySettings.toJson c.security_settings)]

/-- `get_config` from commands.rs: returns the hardcoded configuration. -/
def get_config : Except String ApiResponse :=
  let config : SynapseConfig :=
    { language := "en"
      mode := "supervised"
      llm_providers :=
        [{ name := "OpenAI GPT-4"
           provider_type := "openai"
           api_key := none
           base_url := some "https://api.openai.com/v1"
           model := "gpt-4o"
           priority := 1
           is_active := true }]
      data_paths :=
        [("config", "~/.synapse/config"), ("skills", "~/.synapse/skills"),
         ("memory", "~/.synapse/memory")]
      security_settings :=
        { require_approval_for_risk := 3
          isolation_policy := "container"
          audit_enabled := true
          trusted_users := [] } }
  .ok (ApiResponse.mkSuccess (SynapseConfig.toJson config))

/-- `save_config` from commands.rs: ignores its argument, no persistence. -/
def save_config (_config : SynapseConfig) : Except String ApiResponse :=
  .ok (ApiResponse.mkSuccess (.obj
    [("saved", .bool true),
     ("message", .str "Configuration saved successfully")]))

/-- `test_llm_connection` from commands.rs. -/
def test_llm_connection (provider_type : String) (api_key : String)
    (_base_url : Option String) (model : String) : Except String ApiResponse :=
  let success := !api_key.isEmpty
  .ok (ApiResponse.mkSuccess (.obj
    [("connected", .bool success),
     ("provider", .str provider_type),
     ("model", .str model),
     ("message", .str (if success then "Connection successful" else "Invalid API key"))]))

/-- `SkillInfo` from commands.rs (timestamps as their serialised strings). -/
structure SkillInfo where
  id : String
  name : String
  version : String
  status : String
  trust_level : String
  risk_level : Nat
  isolation_type : String
  required_capabilities : List String
  created_at : String
  last_used : Option String

/-- Serde serialisation of commands.rs `SkillInfo`. -/
def SkillInfo.toJson (s : SkillInfo) : Json :=
  .obj [("id", .str s.id), ("name", .str s.name), ("version", .str s.version),
        ("status", .str s.status), ("trust_level", .str s.trust_level),
        ("risk_level", .num s.risk_level), ("isolation_type", .str s.isolation_type),
        ("required_capabilities", .arr (s.required_capabilities.map Json.str)),
        ("created_at", .str s.created_at), ("last_used", Json.optStr s.last_used)]

/-- `get_skills` from commands.rs (`Utc::now()` is the `now` parameter). -/
def get_skills (now : String) : Except String ApiResponse :=
  let skills : List SkillInfo :=
    [{ id := "skill-001", name := "read_file", version := "1.0.0",
       status := "active", trust_level := "trusted", risk_level := 1,
       isolation_type := "subprocess", required_capabilities := ["fs:read"],
       created_at := now, last_used := some now },
     { id := "skill-002", name := "write_file", version := "1.0.0",
       status := "active", trust_level := "verified", risk_level := 2,
       isolation_type := "container", required_capabilities := ["fs:write"],
       created_at := now, last_used := some now },
     { id := "skill-003", name := "web_search", version := "1.0.0",
       status := "pending", trust_level := "unverified", risk_level := 3,
       isolation_type := "container", required_capabilities := ["network:http"],
       created_at := now, last_used := none }]
  .ok (ApiResponse.mkSuccess (.arr (skills.map SkillInfo.toJson)))

/-- `get_skill_details` from commands.rs: placeholder data for any id. -/
def get_skill_details (skill_id : String) : Except String ApiResponse :=
  .ok (ApiResponse.mkSuccess (.obj
    [("id", .str skill_id),
     ("name", .str "example_skill"),
     ("version", .str "1.0.0"),
     ("description", .str "Example skill for demonstration"),
     ("author", .str "synapse_core"),
     ("inputs", .obj [("query", .obj [("type", .str "string"), ("required", .bool true)])]),
     ("outputs", .obj [("result", .obj [("type", .str "string")])]),
     ("required_capabilities", .arr [.str "fs:read"]),
     ("risk_level", .num 2),
     ("trust_level", .str "verified"),
     ("isolation_type", .str "container")]))

/-- `approve_skill` from commands.rs. -/
def approve_skill (skill_id : String) (approved_by : String) (now : String) :
    Except String ApiResponse :=
  .ok (ApiResponse.mkSuccess (.obj
    [("skill_id", .str skill_id), ("approved", .bool true),
     ("approved_by", .str approved_by), ("approved_at", .str now)]))

/-- `reject_skill` from commands.rs. -/
def reject_skill (skill_id : String) (reason : String) (now : String) :
    Except String ApiResponse :=
  .ok (ApiResponse.mkSuccess (.obj
    [("skill_id", .str skill_id), ("rejected", .bool true),
     ("reason", .str reason), ("rejected_at", .str now)]))

/-- `archive_skill` from commands.rs. -/
def archive_skill (skill_id : String) (now : String) : Except String ApiResponse :=
  .ok (ApiResponse.mkSuccess (.obj
    [("skill_id", .str skill_id), ("archived", .bool true),
     ("archived_at", .str now)]))

/-- `SystemMetrics` from commands.rs (f64 fields as `Rat`). -/
structure SystemMetrics where
  cpu_percent : Rat
  memory_percent : Rat
  memory_used_mb : Nat
  memory_total_mb : Nat
  disk_percent : Rat
  uptime_seconds : Nat

/-- Serde serialisation of commands.rs `SystemMetrics`. -/
def SystemMetrics.toJson (m : SystemMetrics) : Json :=
  .obj [("cpu_percent", .num m.cpu_percent), ("memory_percent", .num m.memory_percent),
        ("memory_used_mb", .num m.memory_used_mb), ("memory_total_mb", .num m.memory_total_mb),
        ("disk_percent", .num m.disk_percent), ("uptime_seconds", .num m.uptime_seconds)]

/-- `get_system_metrics` from commands.rs: hardcoded snapshot. -/
def get_system_metrics : Except String ApiResponse :=
  let metrics : SystemMetrics :=
    { cpu_percent := 25.5, memory_percent := 45.2, memory_used_mb := 1843,
      memory_total_mb := 4096, disk_percent := 35.0, uptime_seconds := 86400 }
  .ok (ApiResponse.mkSuccess (SystemMetrics.toJson metrics))

/-- `LLMUsageMetrics` from commands.rs. -/
structure LLMUsageMetrics where
  total_tokens : Nat
  prompt_tokens : Nat
  completion_tokens : Nat
  estimated_cost_usd : Rat
  provider_distribution : List (String × Nat)

/-- Serde serialisation of `LLMUsageMetrics`. -/
def LLMUsageMetrics.toJson (m : LLMUsageMetrics) : Json :=
  .obj [("total_tokens", .num m.total_tokens), ("prompt_tokens", .num m.prompt_tokens),
        ("completion_tokens", .num m.completion_tokens),
        ("estimated_cost_usd", .num m.estimated_cost_usd),
        ("provider_distribution", .obj (m.provider_distribution.map fun p => (p.1, Json.num p.2)))]

/-- `get_llm_usage` from commands.rs. -/
def get_llm_usage : Except String ApiResponse :=
  let metrics : LLMUsageMetrics :=
    { total_tokens := 100000, prompt_tokens := 60000, completion_tokens := 40000,
      estimated_cost_usd := 1.25,
      provider_distribution := [("openai", 75000), ("anthropic", 25000)] }
  .ok (ApiResponse.mkSuccess (LLMUsageMetrics.toJson metrics))

/-- `SkillMetrics` from commands.rs. -/
structure SkillMetrics where
  skill_name : String
  total_executions : Nat
  successful_executions : Nat
  failed_executions : Nat
  avg_latency_ms : Rat
  success_rate : Rat

/-- Serde serialisation of commands.rs `SkillMetrics`. -/
def SkillMetrics.toJson (m : SkillMetrics) : Json :=
  .obj [("skill_name", .str m.skill_name), ("total_executions", .num m.total_executions),
        ("successful_executions", .num m.successful_executions),
        ("failed_executions", .num m.failed_executions),
        ("avg_latency_ms", .num m.avg_latency_ms), ("success_rate", .num m.success_rate)]

/-- `get_skill_metrics` from commands.rs: optionally filters by skill name. -/
def get_skill_metrics (skill_name : Option String) : Except String ApiResponse :=
  let metrics : List SkillMetrics :=
    [{ skill_name := "read_file", total_executions := 150,
       successful_executions := 148, failed_executions := 2,
       avg_latency_ms := 45.5, success_rate := 98.67 },
     { skill_name := "write_file", total_executions := 75,
       successful_executions := 73, failed_executions := 2,
       avg_latency_ms := 62.3, success_rate := 97.33 }]
  match skill_name with
  | some name =>
    let filtered := metrics.filter fun m => m.skill_name == name
    .ok (ApiResponse.mkSuccess (.arr (filtered.map SkillMetrics.toJson)))
  | none =>
    .ok (ApiResponse.mkSuccess (.arr (metrics.map SkillMetrics.toJson)))

/-- `CapabilityInfo` from commands.rs. -/
structure CapabilityInfo where
  token_id : String
  user_id : String
  capabilities : List String
  issued_at : String
  expires_at : Option String
  is_valid : Bool

/-- Serde serialisation of `CapabilityInfo`. -/
def CapabilityInfo.toJson (c : CapabilityInfo) : Json :=
  .obj [("token_id", .str c.token_id), ("user_id", .str c.user_id),
        ("capabilities", .arr (c.capabilities.map Json.str)),
        ("issued_at", .str c.issued_at), ("expires_at", Json.optStr c.expires_at),
        ("is_valid", .bool c.is_valid)]

/-- `get_capabilities` from commands.rs: fixed single token, `user_id` unused. -/
def get_capabilities (_user_id : Option String) (now : String) :
    Except String ApiResponse :=
  let capabilities : List CapabilityInfo :=
    [{ token_id := "cap-001", user_id := "admin",
       capabilities := ["fs:read", "fs:write", "network:http"],
       issued_at := now, expires_at := none, is_valid := true }]
  .ok (ApiResponse.mkSuccess (.arr (capabilities.map CapabilityInfo.toJson)))

/-- `AuditLogEntry` from commands.rs. -/
structure AuditLogEntry where
  id : String
  timestamp : String
  action : String
  user_id : String
  result : String
  details : Option String

/-- Serde serialisation of commands.rs `AuditLogEntry`. -/
def AuditLogEntry.toJson (e : AuditLogEntry) : Json :=
  .obj [("id", .str e.id), ("timestamp", .str e.timestamp), ("action", .str e.action),
        ("user_id", .str e.user_id), ("result", .str e.result),
        ("details", Json.optStr e.details)]

/-- `get_audit_log` from commands.rs: all three filters unused. -/
def get_audit_log (now : String) (_limit : Option Nat)
    (_action_filter : Option String) (_user_filter : Option String) :
    Except String ApiResponse :=
  let entries : List AuditLogEntry :=
    [{ id := "audit-001", timestamp := now, action := "skill_execute",
       user_id := "admin", result := "success",
       details := some "Executed read_file skill" },
     { id := "audit-002", timestamp := now, action := "config_update",
       user_id := "admin", result := "success",
       details := some "Updated LLM provider settings" }]
  .ok (ApiResponse.mkSuccess (.arr (entries.map AuditLogEntry.toJson)))

/-- `get_security_settings` from commands.rs. -/
def get_security_settings : Except String ApiResponse :=
  .ok (ApiResponse.mkSuccess (.obj
    [("require_approval_for_risk", .num 3),
     ("isolation_policy", .str "container"),
     ("audit_enabled", .bool true),
     ("trusted_users", .arr []),
     ("rate_limit_per_minute", .num 60),
     ("session_timeout_minutes", .num 30)]))

/-- `update_security_settings` from commands.rs: echoes the settings back. -/
def update_security_settings (settings : SecuritySettings) :
    Except String ApiResponse :=
  .ok (ApiResponse.mkSuccess (.obj
    [("updated", .bool true),
     ("settings", SecuritySettings.toJson settings)]))

end commands

namespace skills

/-- `SKILLS_PROTOCOL_VERSION` from skills.rs. -/
def SKILLS_PROTOCOL_VERSION : String := "1.0"

/-- `SkillInfo` from skills.rs: unlike the commands.rs struct of the same
name, it has a `protocol_version` field (and no `spec_version` field). -/
structure SkillInfo where
  id : String
  name : String
  version : String
  status : String
  trust_level : String
  risk_level : Nat
  isolation_type : String
  required_capabilities : List String
  created_at : String
  last_used : Option String
  protocol_version : String

/-- Serde serialisation of skills.rs `SkillInfo` (declaration field order). -/
def SkillInfo.toJson (s : SkillInfo) : Json :=
  .obj [("id", .str s.id), ("name", .str s.name), ("version", .str s.version),
        ("status", .str s.status), ("trust_level", .str s.trust_level),
        ("risk_level", .num s.risk_level), ("isolation_type", .str s.isolation_type),
        ("required_capabilities", .arr (s.required_capabilities.map Json.str)),
        ("created_at", .str s.created_at), ("last_used", Json.optStr s.last_used),
        ("protocol_version", .str s.protocol_version)]

/-- `get_all_skills` from skills.rs: fixed two-element vector. -/
def get_all_skills : List SkillInfo :=
  [{ id := "skill-001", name := "read_file", version := "1.0.0",
     status := "active", trust_level := "trusted", risk_level := 1,
     isolation_type := "subprocess", required_capabilities := ["fs:read"],
     created_at := "2026-02-20T00:00:00Z",
     last_used := some "2026-02-20T12:00:00Z",
     protocol_version := SKILLS_PROTOCOL_VERSION },
   { id := "skill-002", name := "write_file", version := "1.0.0",
     status := "active", trust_level := "verified", risk_level := 2,
     isolation_type := "container", required_capabilities := ["fs:write"],
     created_at := "2026-02-20T00:00:00Z", last_used := none,
     protocol_version := SKILLS_PROTOCOL_VERSION }]

/-- `get_skill_by_id` from skills.rs. -/
def get_skill_by_id (id : String) : Option SkillInfo :=
  get_all_skills.find? fun s => s.id == id

/-- `approve_skill` from skills.rs: unconditional `true`. -/
def approve_skill (_id : String) (_approved_by : String) : Bool :=
  true

/-- `reject_skill` from skills.rs: unconditional `true`. -/
def reject_skill (_id : String) (_reason : String) : Bool :=
  true

/-- `archive_skill` from skills.rs: unconditional `true`. -/
def archive_skill (_id : String) : Bool :=
  true

end skills

namespace security

/-- `SECURITY_PROTOCOL_VERSION` from security.rs. -/
def SECURITY_PROTOCOL_VERSION : String := "1.0"

/-- `SecuritySettings` from security.rs (has a `protocol_version` field,
unlike the struct of the same name in commands.rs). -/
structure SecuritySettings where
  require_approval_for_risk : Nat
  isolation_policy : String
  audit_enabled : Bool
  trusted_users : List String
  protocol_version : String
deriving DecidableEq

/-- Serde serialisation of security.rs `SecuritySettings`. -/
def SecuritySettings.toJson (s : SecuritySettings) : Json :=
  .obj [("require_approval_for_risk", .num s.require_approval_for_risk),
        ("isolation_policy", .str s.isolation_policy),
        ("audit_enabled", .bool s.audit_enabled),
        ("trusted_users", .arr (s.trusted_users.map Json.str)),
        ("protocol_version", .str s.protocol_version)]

/-- `CapabilityToken` from security.rs. -/
structure CapabilityToken where
  id : String
  user_id : String
  capability : String
  granted_at : String
  expires_at : Option String
  protocol_version : String

/-- Serde serialisation of `CapabilityToken`. -/
def CapabilityToken.toJson (t : CapabilityToken) : Json :=
  .obj [("id", .str t.id), ("user_id", .str t.user_id),
        ("capability", .str t.capability), ("granted_at", .str t.granted_at),
        ("expires_at", Json.optStr t.expires_at),
        ("protocol_version", .str t.protocol_version)]

/-- `AuditLogEntry` from security.rs; `details: HashMap<String, String>` is
an association list in the source literal's insertion order. -/
structure AuditLogEntry where
  id : String
  timestamp : String
  action : String
  user_id : String
  details : List (String × String)
  protocol_version : String
deriving DecidableEq

/-- Serde serialisation of security.rs `AuditLogEntry`. -/
def AuditLogEntry.toJson (e : AuditLogEntry) : Json :=
  .obj [("id", .str e.id), ("timestamp", .str e.timestamp),
        ("action", .str e.action), ("user_id", .str e.user_id),
        ("details", .obj (e.details.map fun p => (p.1, Json.str p.2))),
        ("protocol_version", .str e.protocol_version)]

/-- `get_security_settings` from security.rs: fixed settings. -/
def get_security_settings : SecuritySettings :=
  { require_approval_for_risk := 3
    isolation_policy := "container"
    audit_enabled := true
    trusted_users := []
    protocol_version := SECURITY_PROTOCOL_VERSION }

/-- `update_security_settings` from security.rs: unconditional `true`. -/
def update_security_settings (_settings : SecuritySettings) : Bool :=
  true

/-- `get_capability_tokens` from security.rs: fixed vector, `user_id` unused. -/
def get_capability_tokens (_user_id : Option String) : List CapabilityToken :=
  [{ id := "cap-001", user_id := "user-001", capability := "fs:read",
     granted_at := "2026-02-20T00:00:00Z", expires_at := none,
     protocol_version := SECURITY_PROTOCOL_VERSION }]

/-- `get_audit_log` from security.rs: fixed one-entry vector, all three
filter arguments unused. -/
def get_audit_log (_start_time : Option String) (_end_time : Option String)
    (_user_id : Option String) : List AuditLogEntry :=
  [{ id := "audit-001", timestamp := "2026-02-20T12:00:00Z",
     action := "skill_execution", user_id := "user-001",
     details := [("skill_id", "skill-001"), ("status", "success")],
     protocol_version := SECURITY_PROTOCOL_VERSION }]

end security

namespace metrics

/-- `METRICS_PROTOCOL_VERSION` from metrics.rs. -/
def METRICS_PROTOCOL_VERSION : String := "1.0"

/-- The sysinfo snapshot read by metrics.rs `get_system_metrics` after
`System::new_all()` / `refresh_all()`: global CPU usage, total and used
memory in bytes, and uptime in seconds. -/
structure SysState where
  cpu_usage : Rat
  total_memory : Nat
  used_memory : Nat
  uptime : Nat

/-- `SystemMetrics` from metrics.rs (f32 fields as `Rat`; it has a
`protocol_version` field, unlike the commands.rs struct of the same name). -/
structure SystemMetrics where
  cpu_percent : Rat
  memory_percent : Rat
  memory_used_mb : Nat
  memory_total_mb : Nat
  disk_percent : Rat
  uptime_seconds : Nat
  protocol_version : String

/-- Serde serialisation of metrics.rs `SystemMetrics`. -/
def SystemMetrics.toJson (m : SystemMetrics) : Json :=
  .obj [("cpu_percent", .num m.cpu_percent), ("memory_percent", .num m.memory_percent),
        ("memory_used_mb", .num m.memory_used_mb), ("memory_total_mb", .num m.memory_total_mb),
        ("disk_percent", .num m.disk_percent), ("uptime_seconds", .num m.uptime_seconds),
        ("protocol_version", .str m.protocol_version)]

/-- `get_system_metrics` from metrics.rs: computed from the live system
snapshot `sys` (float casts and division modelled exactly on `Rat`). -/
def get_system_metrics (sys : SysState) : SystemMetrics :=
  let cpu_percent := sys.cpu_usage
  let total_memory := sys.total_memory
  let used_memory := sys.used_memory
  let memory_percent : Rat := (used_memory : Rat) / (total_memory : Rat) * 100
  { cpu_percent := cpu_percent
    memory_percent := memory_percent
    memory_used_mb := used_memory / 1024 / 1024
    memory_total_mb := total_memory / 1024 / 1024
    disk_percent := 35.0
    uptime_seconds := sys.uptime
    protocol_version := METRICS_PROTOCOL_VERSION }

/-- `LLMUsage` from metrics.rs. -/
structure LLMUsage where
  total_tokens : Nat
  prompt_tokens : Nat
  completion_tokens : Nat
  estimated_cost_usd : Rat
  protocol_version : String

/-- Serde serialisation of `LLMUsage`. -/
def LLMUsage.toJson (u : LLMUsage) : Json :=
  .obj [("total_tokens", .num u.total_tokens), ("prompt_tokens", .num u.prompt_tokens),
        ("completion_tokens", .num u.completion_tokens),
        ("estimated_cost_usd", .num u.estimated_cost_usd),
        ("protocol_version", .str u.protocol_version)]

/-- `get_llm_usage_stats` from metrics.rs: fixed usage record. -/
def get_llm_usage_stats : LLMUsage :=
  { total_tokens := 100000, prompt_tokens := 60000, completion_tokens := 40000,
    estimated_cost_usd := 1.25, protocol_version := METRICS_PROTOCOL_VERSION }

/-- `SkillMetrics` from metrics.rs. -/
structure SkillMetrics where
  skill_id : String
  execution_count : Nat
  success_count : Nat
  failure_count : Nat
  average_latency_ms : Rat
  protocol_version : String

/-- Serde serialisation of metrics.rs `SkillMetrics`. -/
def SkillMetrics.toJson (m : SkillMetrics) : Json :=
  .obj [("skill_id", .str m.skill_id), ("execution_count", .num m.execution_count),
        ("success_count", .num m.success_count), ("failure_count", .num m.failure_count),
        ("average_latency_ms", .num m.average_latency_ms),
        ("protocol_version", .str m.protocol_version)]

/-- `get_skill_execution_metrics` from metrics.rs: fixed vector,
`skill_id` unused. -/
def get_skill_execution_metrics (_skill_id : Option String) : List SkillMetrics :=
  [{ skill_id := "skill-001", execution_count := 100, success_count := 95,
     failure_count := 5, average_latency_ms := 45.5,
     protocol_version := METRICS_PROTOCOL_VERSION }]

end metrics

namespace wizard

/-- `WIZARD_PROTOCOL_VERSION` from wizard.rs. -/
def WIZARD_PROTOCOL_VERSION : String := "1.0"

/-- `WizardStep` from wizard.rs. -/
structure WizardStep where
  id : String
  title : String
  description : String
  is_complete : Bool
  protocol_version : String

/-- Serde serialisation of `WizardStep`. -/
def WizardStep.toJson (w : WizardStep) : Json :=
  .obj [("id", .str w.id), ("title", .str w.title),
        ("description", .str w.description), ("is_complete", .bool w.is_complete),
        ("protocol_version", .str w.protocol_version)]

/-- `get_wizard_steps` from wizard.rs: the six fixed wizard steps. -/
def get_wizard_steps : List WizardStep :=
  [{ id := "welcome", title := "Welcome",
     description := "Welcome to Synapse Configurator", is_complete := false,
     protocol_version := WIZARD_PROTOCOL_VERSION },
   { id := "language", title := "Language Selection",
     description := "Choose your preferred language", is_complete := false,
     protocol_version := WIZARD_PROTOCOL_VERSION },
   { id := "llm", title := "LLM Provider",
     description := "Configure your LLM provider", is_complete := false,
     protocol_version := WIZARD_PROTOCOL_VERSION },
   { id := "storage", title := "Storage Paths",
     description := "Configure data storage locations", is_complete := false,
     protocol_version := WIZARD_PROTOCOL_VERSION },
   { id := "security", title := "Security Mode",
     description := "Configure security settings", is_complete := false,
     protocol_version := WIZARD_PROTOCOL_VERSION },
   { id := "review", title := "Review",
     description := "Review and apply configuration", is_complete := false,
     protocol_version := WIZARD_PROTOCOL_VERSION }]

/-- `get_supported_languages` from wizard.rs: each `HashMap<String, String>`
is an association list in the source literal's insertion order. -/
def get_supported_languages : List (List (String × String)) :=
  [[("code", "en"), ("name", "English"),
    ("protocol_version", WIZARD_PROTOCOL_VERSION)],
   [("code", "ru"), ("name", "Русский"),
    ("protocol_version", WIZARD_PROTOCOL_VERSION)]]

/-- `get_supported_llm_providers` from wizard.rs. -/
def get_supported_llm_providers : List (List (String × String)) :=
  [[("id", "openai"), ("name", "OpenAI"),
    ("models", "gpt-4o,gpt-4-turbo,gpt-3.5-turbo"),
    ("protocol_version", WIZARD_PROTOCOL_VERSION)],
   [("id", "anthropic"), ("name", "Anthropic"),
    ("models", "claude-3.5-sonnet,claude-3-opus"),
    ("protocol_version", WIZARD_PROTOCOL_VERSION)],
   [("id", "ollama"), ("name", "Ollama (Local)"),
    ("models", "llama3,mistral,codellama"),
    ("protocol_version", WIZARD_PROTOCOL_VERSION)]]

end wizard

/-- The `BaseResponse` of a command result, when it is `Ok`. -/
def baseOf : Except String commands.ApiResponse → Option commands.BaseResponse
  | .ok r => some r.base
  | .error _ => none

/-- A field of the `data` payload of a command result, when present. -/
def dataField (r : Except String commands.ApiResponse) (k : String) : Option Json :=
  match r with
  | .ok a => a.data.bind fun j => jfield j k
  | .error _ => none

/-- The elements of an array `data` payload of a command result. -/
def dataElems : Except String commands.ApiResponse → Option (List Json)
  | .ok a =>
    a.data.bind fun j =>
      match j with
      | .arr xs => some xs
      | _ => none
  | .error _ => none

/-- The result is `Ok`, with `success = true` and a `None` error field. -/
def okSuccessNoError : Except String commands.ApiResponse → Prop
  | .ok r => r.success = true ∧ r.error = none
  | .error _ => False

/-- Claim C2: `save_config` performs no persistence: for every configuration
`c` it returns a success response with `saved = true`, and `get_config`
(which takes no state and no arguments, so a call after the save is the
identical constant as a call before) returns the hardcoded default
configuration with language "en", mode "supervised", a single OpenAI
provider, and `require_approval_for_risk = 3`. -/
theorem c2_save_config_is_stub (c : commands.SynapseConfig) :
    commands.save_config c = .ok (commands.ApiResponse.mkSuccess (.obj
      [("saved", .bool true),
       ("message", .str "Configuration saved successfully")])) ∧
    ∃ cfg : commands.SynapseConfig,
      commands.get_config =
        .ok (commands.ApiResponse.mkSuccess (commands.SynapseConfig.toJson cfg)) ∧
      cfg.language = "en" ∧ cfg.mode = "supervised" ∧
      cfg.llm_providers.map (fun p => p.provider_type) = ["openai"] ∧
      cfg.security_settings.require_approval_for_risk = 3 :=
  ⟨rfl, ⟨_, rfl, rfl, rfl, rfl, rfl⟩⟩

/-- Claim C3: `skills::approve_skill`, `skills::reject_skill`,
`skills::archive_skill` and `security::update_security_settings` return
`true` for every input, unconditionally. -/
theorem c3_unconditional_true (id aid rid : String) (approved_by reason : String)
    (settings : security.SecuritySettings) :
    skills.approve_skill id approved_by = true ∧
    skills.reject_skill rid reason = true ∧
    skills.archive_skill aid = true ∧
    security.update_security_settings settings = true :=
  ⟨rfl, rfl, rfl, rfl⟩

/-- Claim C5: the audit log getters ignore every filter argument: for a
fixed clock instant, `commands::get_audit_log` returns the same response for
any two choices of `(limit, action_filter, user_filter)`, and
`security::get_audit_log` returns the same fixed one-entry vector for every
choice of `(start_time, end_time, user_id)`. -/
theorem c5_audit_log_ignores_filters :
    (∀ now l1 a1 u1 l2 a2 u2,
      commands.get_audit_log now l1 a1 u1 = commands.get_audit_log now l2 a2 u2) ∧
    (∀ st et uid, security.get_audit_log st et uid =
      [{ id := "audit-001", timestamp := "2026-02-20T12:00:00Z",
         action := "skill_execution", user_id := "user-001",
         details := [("skill_id", "skill-001"), ("status", "success")],
         protocol_version := "1.0" }]) :=
  ⟨fun _ _ _ _ _ _ _ => rfl, fun _ _ _ => rfl⟩

/-- Claim C6: the exposed command `commands::get_system_metrics` returns the
same fixed metrics on every call (cpu 25.5, memory 45.2 %, 1843 of 4096 MB,
disk 35.0, uptime 86400), independent of system state, whereas the unexposed
`metrics::get_system_metrics` depends on the live system snapshot (two
snapshots differing in uptime give different results). -/
theorem c6_system_metrics_hardcoded :
    commands.get_system_metrics = .ok (commands.ApiResponse.mkSuccess
      (commands.SystemMetrics.toJson
        { cpu_percent := 25.5, memory_percent := 45.2, memory_used_mb := 1843,
          memory_total_mb := 4096, disk_percent := 35.0,
          uptime_seconds := 86400 })) ∧
    metrics.get_system_metrics ⟨0, 1, 0, 0⟩ ≠ metrics.get_system_metrics ⟨0, 1, 0, 1⟩ := by
  refine ⟨rfl, fun h => ?_⟩
  have h2 := congrArg metrics.SystemMetrics.uptime_seconds h
  simp [metrics.get_system_metrics] at h2

/-- Claim C7: for every `skill_id`, `get_skill_details` returns a success
response whose data has `id` equal to the given `skill_id` and fixed
placeholders for the other fields (name "example_skill", version "1.0.0",
risk_level 2, trust_level "verified", isolation_type "container"); it never
fails. -/
theorem c7_skill_details_placeholder (skill_id : String) :
    okSuccessNoError (commands.get_skill_details skill_id) ∧
    dataField (commands.get_skill_details skill_id) "id" = some (.str skill_id) ∧
    dataField (commands.get_skill_details skill_id) "name" = some (.str "example_skill") ∧
    dataField (commands.get_skill_details skill_id) "version" = some (.str "1.0.0") ∧
    dataField (commands.get_skill_details skill_id) "risk_level" = some (.num 2) ∧
    dataField (commands.get_skill_details skill_id) "trust_level" = some (.str "verified") ∧
    dataField (commands.get_skill_details skill_id) "isolation_type" = some (.str "container") :=
  ⟨⟨rfl, rfl⟩, rfl, rfl, rfl, rfl, rfl, rfl⟩

/-- Claim C8: every Tauri command registered in main.rs returns `Ok` with
`success = true` and a `None` error field, for every input; none ever
returns the `Err` variant, so a client can never observe `success = false`
or a non-null error. -/
theorem c8_commands_never_fail :
    okSuccessNoError commands.get_config ∧
    (∀ c, okSuccessNoError (commands.save_config c)) ∧
    (∀ pt key bu m, okSuccessNoError (commands.test_llm_connection pt key bu m)) ∧
    (∀ now, okSuccessNoError (commands.get_skills now)) ∧
    (∀ sid, okSuccessNoError (commands.get_skill_details sid)) ∧
    (∀ sid ab now, okSuccessNoError (commands.approve_skill sid ab now)) ∧
    (∀ sid r now, okSuccessNoError (commands.reject_skill sid r now)) ∧
    (∀ sid now, okSuccessNoError (commands.archive_skill sid now)) ∧
    okSuccessNoError commands.get_system_metrics ∧
    okSuccessNoError commands.get_llm_usage ∧
    (∀ sn, okSuccessNoError (commands.get_skill_metrics sn)) ∧
    (∀ uid now, okSuccessNoError (commands.get_capabilities uid now)) ∧
    (∀ now l af uf, okSuccessNoError (commands.get_audit_log now l af uf)) ∧
    okSuccessNoError commands.get_security_settings ∧
    (∀ s, okSuccessNoError (commands.update_security_settings s)) :=
  ⟨⟨rfl, rfl⟩, fun _ => ⟨rfl, rfl⟩, fun _ _ _ _ => ⟨rfl, rfl⟩, fun _ => ⟨rfl, rfl⟩,
   fun _ => ⟨rfl, rfl⟩, fun _ _ _ => ⟨rfl, rfl⟩, fun _ _ _ => ⟨rfl, rfl⟩,
   fun _ _ => ⟨rfl, rfl⟩, ⟨rfl, rfl⟩, ⟨rfl, rfl⟩,
   fun sn => by cases sn <;> exact ⟨rfl, rfl⟩,
   fun _ _ => ⟨rfl, rfl⟩, fun _ _ _ _ => ⟨rfl, rfl⟩, ⟨rfl, rfl⟩, fun _ => ⟨rfl, rfl⟩⟩

/-- Claim C4: `test_llm_connection` performs no network call: its data
reports `connected = true` if and only if `api_key` is non-empty, with
message "Connection successful" when non-empty and "Invalid API key"
otherwise, and the `provider_type`, `base_url` and `model` arguments have
no influence on the `connected` result. -/
theorem c4_test_llm_connection_stub (pt key : String) (bu : Option String)
    (m : String) (pt2 : String) (bu2 : Option String) (m2 : String) :
    dataField (commands.test_llm_connection pt key bu m) "connected" =
      some (.bool (!key.isEmpty)) ∧
    (dataField (commands.test_llm_connection pt key bu m) "connected" =
      some (.bool true) ↔ key ≠ "") ∧
    dataField (commands.test_llm_connection pt key bu m) "message" =
      some (.str (if key = "" then "Invalid API key" else "Connection successful")) ∧
    dataField (commands.test_llm_connection pt key bu m) "connected" =
      dataField (commands.test_llm_connection pt2 key bu2 m2) "connected" := by
  by_cases hk : key = ""
  · subst hk
    refine ⟨rfl, ?_, rfl, rfl⟩
    rw [show dataField (commands.test_llm_connection pt "" bu m) "connected" =
      some (Json.bool false) from rfl]
    simp
  · have he : key.isEmpty = false := by
      rw [Bool.eq_false_iff]
      simpa [String.isEmpty_iff] using hk
    refine ⟨rfl, ?_, ?_, rfl⟩
    · rw [show dataField (commands.test_llm_connection pt key bu m) "connected" =
        some (Json.bool (!key.isEmpty)) from rfl, he]
      simp [hk]
    · rw [show dataField (commands.test_llm_connection pt key bu m) "message" =
        some (Json.str (if !key.isEmpty then "Connection successful"
          else "Invalid API key")) from rfl, he]
      simp [hk]

/-- Witness for C4 at a concrete key: a non-empty API key reports
`connected = true`. -/
theorem c4_test_llm_connection_stub_witness :
    dataField (commands.test_llm_connection "openai" "sk-test" none "gpt-4o")
      "connected" = some (.bool true) :=
  (c4_test_llm_connection_stub "openai" "sk-test" none "gpt-4o" "x" none "y").2.1.mpr
    (by decide)

/-- Claim C9: `skills::get_skill_by_id id` returns `some s` exactly when
`id` is "skill-001" or "skill-002", with `s.id = id` in that case, and
returns `none` for every other id. -/
theorem c9_get_skill_by_id_spec (id : String) :
    (∀ s, skills.get_skill_by_id id = some s → s.id = id) ∧
    (id ≠ "skill-001" → id ≠ "skill-002" → skills.get_skill_by_id id = none) ∧
    ((id = "skill-001" ∨ id = "skill-002") →
      ∃ s, skills.get_skill_by_id id = some s ∧ s.id = id) := by
  by_cases h1 : id = "skill-001"
  · subst h1
    refine ⟨?_, fun h _ => absurd rfl h, fun _ => ⟨_, rfl, rfl⟩⟩
    intro s hs
    rw [show skills.get_skill_by_id "skill-001" =
      some { id := "skill-001", name := "read_file", version := "1.0.0",
             status := "active", trust_level := "trusted", risk_level := 1,
             isolation_type := "subprocess", required_capabilities := ["fs:read"],
             created_at := "2026-02-20T00:00:00Z",
             last_used := some "2026-02-20T12:00:00Z",
             protocol_version := "1.0" } from rfl] at hs
    injection hs with h
    subst h
    rfl
  by_cases h2 : id = "skill-002"
  · subst h2
    refine ⟨?_, fun _ h => absurd rfl h, fun _ => ⟨_, rfl, rfl⟩⟩
    intro s hs
    rw [show skills.get_skill_by_id "skill-002" =
      some { id := "skill-002", name := "write_file", version := "1.0.0",
             status := "active", trust_level := "verified", risk_level := 2,
             isolation_type := "container", required_capabilities := ["fs:write"],
             created_at := "2026-02-20T00:00:00Z", last_used := none,
             protocol_version := "1.0" } from rfl] at hs
    injection hs with h
    subst h
    rfl
  have e1 : ("skill-001" == id) = false := beq_eq_false_iff_ne.mpr (Ne.symm h1)
  have e2 : ("skill-002" == id) = false := beq_eq_false_iff_ne.mpr (Ne.symm h2)
  have hn : skills.get_skill_by_id id = none := by
    simp [skills.get_skill_by_id, skills.get_all_skills, List.find?, e1, e2]
  refine ⟨fun s hs => ?_, fun _ _ => hn, fun hor => ?_⟩
  · rw [hn] at hs
    cases hs
  · rcases hor with h | h
    · exact absurd h h1
    · exact absurd h h2

/-- Witness for C9: at id "skill-001" the lookup succeeds with matching id,
and at the fresh id "skill-999" it returns `none`. -/
theorem c9_get_skill_by_id_spec_witness :
    (∃ s, skills.get_skill_by_id "skill-001" = some s ∧ s.id = "skill-001") ∧
    skills.get_skill_by_id "skill-999" = none :=
  ⟨(c9_get_skill_by_id_spec "skill-001").2.2 (Or.inl rfl),
   (c9_get_skill_by_id_spec "skill-999").2.1 (by decide) (by decide)⟩

/-- Claim C10: for every `name`, the data of `get_skill_metrics (some name)`
is exactly the sublist of the entries of `get_skill_metrics none` whose
`skill_name` equals `name`, in order; in particular, for any name other than
"read_file" or "write_file" the result is the empty list with
`success = true`. -/
theorem c10_skill_metrics_filter (name : String) :
    dataElems (commands.get_skill_metrics (some name)) =
      (dataElems (commands.get_skill_metrics none)).map
        (List.filter fun j =>
          match jfield j "skill_name" with
          | some (Json.str s) => s == name
          | _ => false) ∧
    (name ≠ "read_file" → name ≠ "write_file" →
      dataElems (commands.get_skill_metrics (some name)) = some [] ∧
      okSuccessNoError (commands.get_skill_metrics (some name))) := by
  by_cases h1 : name = "read_file"
  · subst h1
    exact ⟨rfl, fun h _ => absurd rfl h⟩
  by_cases h2 : name = "write_file"
  · subst h2
    exact ⟨rfl, fun _ h => absurd rfl h⟩
  have e1 : ("read_file" == name) = false := beq_eq_false_iff_ne.mpr (Ne.symm h1)
  have e2 : ("write_file" == name) = false := beq_eq_false_iff_ne.mpr (Ne.symm h2)
  constructor
  · simp [commands.get_skill_metrics, dataElems, commands.ApiResponse.mkSuccess,
          commands.SkillMetrics.toJson, jfield, List.filter, e1, e2]
  · intro _ _
    refine ⟨?_, rfl, rfl⟩
    simp [commands.get_skill_metrics, dataElems, commands.ApiResponse.mkSuccess,
          List.filter, e1, e2]

/-- Witness for C10: a name no skill has yields an empty but successful
response. -/
theorem c10_skill_metrics_filter_witness :
    dataElems (commands.get_skill_metrics (some "web_search")) = some [] ∧
    okSuccessNoError (commands.get_skill_metrics (some "web_search")) :=
  (c10_skill_metrics_filter "web_search").2 (by decide) (by decide)

/-- Counterexample to claim C1 as stated: the skills returned by
`skills::get_all_skills` serialise with no "spec_version" key at all (the
skills.rs `SkillInfo` struct has only a `protocol_version` field), so not
every response carries a `spec_version` field equal to "3.1". -/
theorem c1_counterexample_no_spec_version :
    skills.get_all_skills.map
      (fun s => jfield (skills.SkillInfo.toJson s) "spec_version") =
      [none, none] := rfl

/-- Claim C1 (amended): every `ApiResponse` returned by a Tauri command in
commands.rs carries `protocol_version = "1.0"` and `spec_version = "3.1"`;
the response structures returned by the module-level functions in skills.rs,
security.rs, metrics.rs and wizard.rs carry `protocol_version = "1.0"` but
no `spec_version` field. -/
theorem c1_version_stamping_amended :
    baseOf commands.get_config = some ⟨"1.0", "3.1"⟩ ∧
    (∀ c, baseOf (commands.save_config c) = some ⟨"1.0", "3.1"⟩) ∧
    (∀ pt key bu m,
      baseOf (commands.test_llm_connection pt key bu m) = some ⟨"1.0", "3.1"⟩) ∧
    (∀ now, baseOf (commands.get_skills now) = some ⟨"1.0", "3.1"⟩) ∧
    (∀ sid, baseOf (commands.get_skill_details sid) = some ⟨"1.0", "3.1"⟩) ∧
    (∀ sid ab now, baseOf (commands.approve_skill sid ab now) = some ⟨"1.0", "3.1"⟩) ∧
    (∀ sid r now, baseOf (commands.reject_skill sid r now) = some ⟨"1.0", "3.1"⟩) ∧
    (∀ sid now, baseOf (commands.archive_skill sid now) = some ⟨"1.0", "3.1"⟩) ∧
    baseOf commands.get_system_metrics = some ⟨"1.0", "3.1"⟩ ∧
    baseOf commands.get_llm_usage = some ⟨"1.0", "3.1"⟩ ∧
    (∀ sn, baseOf (commands.get_skill_metrics sn) = some ⟨"1.0", "3.1"⟩) ∧
    (∀ uid now, baseOf (commands.get_capabilities uid now) = some ⟨"1.0", "3.1"⟩) ∧
    (∀ now l af uf, baseOf (commands.get_audit_log now l af uf) = some ⟨"1.0", "3.1"⟩) ∧
    baseOf commands.get_security_settings = some ⟨"1.0", "3.1"⟩ ∧
    (∀ s, baseOf (commands.update_security_settings s) = some ⟨"1.0", "3.1"⟩) ∧
    skills.get_all_skills.map
      (fun s => (s.protocol_version, jfield (skills.SkillInfo.toJson s) "spec_version")) =
      [("1.0", none), ("1.0", none)] ∧
    (∀ id s, skills.get_skill_by_id id = some s →
      s.protocol_version = "1.0" ∧
      jfield (skills.SkillInfo.toJson s) "spec_version" = none) ∧
    (security.get_security_settings.protocol_version = "1.0" ∧
      jfield (security.SecuritySettings.toJson security.get_security_settings)
        "spec_version" = none) ∧
    (∀ uid, (security.get_capability_tokens uid).map
      (fun t => (t.protocol_version, jfield (security.CapabilityToken.toJson t) "spec_version")) =
      [("1.0", none)]) ∧
    (∀ st et uid, (security.get_audit_log st et uid).map
      (fun e => (e.protocol_version, jfield (security.AuditLogEntry.toJson e) "spec_version")) =
      [("1.0", none)]) ∧
    (∀ sys, (metrics.get_system_metrics sys).protocol_version = "1.0" ∧
      jfield (metrics.SystemMetrics.toJson (metrics.get_system_metrics sys))
        "spec_version" = none) ∧
    (metrics.get_llm_usage_stats.protocol_version = "1.0" ∧
      jfield (metrics.LLMUsage.toJson metrics.get_llm_usage_stats) "spec_version" = none) ∧
    (∀ sid, (metrics.get_skill_execution_metrics sid).map
      (fun m => (m.protocol_version, jfield (metrics.SkillMetrics.toJson m) "spec_version")) =
      [("1.0", none)]) ∧
    wizard.get_wizard_steps.map
      (fun w => (w.protocol_version, jfield (wizard.WizardStep.toJson w) "spec_version")) =
      List.replicate 6 ("1.0", none) ∧
    wizard.get_supported_languages.map
      (fun m => (m.lookup "protocol_version", m.lookup "spec_version")) =
      List.replicate 2 (some "1.0", none) ∧
    wizard.get_supported_llm_providers.map
      (fun m => (m.lookup "protocol_version", m.lookup "spec_version")) =
      List.replicate 3 (some "1.0", none) := by
  refine ⟨rfl, fun _ => rfl, fun _ _ _ _ => rfl, fun _ => rfl, fun _ => rfl,
    fun _ _ _ => rfl, fun _ _ _ => rfl, fun _ _ => rfl, rfl, rfl,
    fun sn => ?_, fun _ _ => rfl, fun _ _ _ _ => rfl, rfl, fun _ => rfl,
    rfl, ?_, ⟨rfl, rfl⟩, fun _ => rfl, fun _ _ _ => rfl,
    fun _ => ⟨rfl, rfl⟩, ⟨rfl, rfl⟩, fun _ => rfl, rfl, rfl, rfl⟩
  · cases sn <;> rfl
  · intro id s hs
    have hm := List.mem_of_find?_eq_some hs
    simp only [skills.get_all_skills, List.mem_cons, List.not_mem_nil,
      or_false] at hm
    rcases hm with h | h <;> subst h <;> exact ⟨rfl, rfl⟩

/-- Witness for C1 (amended) at the concrete id "skill-002": the returned
skill carries `protocol_version = "1.0"` and serialises without any
`spec_version` field. -/
theorem c1_version_stamping_amended_witness :
    ∃ s, skills.get_skill_by_id "skill-002" = some s ∧
      s.protocol_version = "1.0" ∧
      jfield (skills.SkillInfo.toJson s) "spec_version" = none := by
  obtain ⟨-, -, -, -, -, -, -, -, -, -, -, -, -, -, -, -, hby, -⟩ :=
    c1_version_stamping_amended
  obtain ⟨h1, h2⟩ := hby "skill-002" _ rfl
  exact ⟨_, rfl, h1, h2⟩
